import Mathlib

/-!
Verification of the elastic client helpers of this repository:
the FetchSourceContext value object and the CountService request
builder (count.go). Collaborators that live outside these two files
(the uritemplates expander, the HTTP client, request construction,
body serialization, response validation and JSON decoding) are
modelled as oracle functions gathered in a `Client` record; the
control flow of `CountService.Do` is translated match-by-match from
the Go source.
-/

/-- Error values. Go errors are opaque to this code; only identity matters. -/
structure Err where
  msg : String
deriving DecidableEq

/-- JSON values, for the request body built by Do (`{"query": ...}`). -/
inductive Json where
  | null
  | bool (b : Bool)
  | num (n : Int)
  | str (s : String)
  | arr (elems : List Json)
  | obj (fields : List (String × Json))

/-- The Query interface of the library, reduced to the one capability the
CountService consumes: a Source() projection producing a serializable value. -/
structure Query where
  Source : Json

/-- Value returned by FetchSourceContext.Source(): in Go an interface value
that is either the literal boolean false or a string-keyed map whose entries
are field-name lists. The obj constructor lists entries in insertion order. -/
inductive SourceValue where
  | bool (b : Bool)
  | obj (fields : List (String × List String))
deriving DecidableEq

/-- FetchSourceContext struct (part_000 lines 3-8). -/
structure FetchSourceContext where
  fetchSource : Bool
  transformSource : Bool
  includes : List String
  excludes : List String
deriving DecidableEq

/-- NewFetchSourceContext (part_000 lines 10-16): transformSource starts at
the Go zero value false; includes and excludes start empty. -/
def NewFetchSourceContext (fetchSource : Bool) : FetchSourceContext :=
  { fetchSource := fetchSource
    transformSource := false
    includes := []
    excludes := [] }

/-- FetchSource accessor (part_000 lines 18-20). -/
def FetchSourceContext.FetchSource (fsc : FetchSourceContext) : Bool :=
  fsc.fetchSource

/-- SetFetchSource mutator (part_000 lines 22-24), as state passing. -/
def FetchSourceContext.SetFetchSource (fsc : FetchSourceContext) (b : Bool) :
    FetchSourceContext :=
  { fsc with fetchSource := b }

/-- Include (part_000 lines 26-29): appends its variadic arguments to the
includes list and returns the (updated) context for chaining. -/
def FetchSourceContext.Include (fsc : FetchSourceContext) (incl : List String) :
    FetchSourceContext :=
  { fsc with includes := fsc.includes ++ incl }

/-- Exclude (part_000 lines 31-34): appends its variadic arguments to the
excludes list and returns the (updated) context for chaining. -/
def FetchSourceContext.Exclude (fsc : FetchSourceContext) (excl : List String) :
    FetchSourceContext :=
  { fsc with excludes := fsc.excludes ++ excl }

/-- TransformSource mutator (part_000 lines 36-39). -/
def FetchSourceContext.TransformSource (fsc : FetchSourceContext) (b : Bool) :
    FetchSourceContext :=
  { fsc with transformSource := b }

/-- Source (part_000 lines 41-49): false when the master switch is off,
otherwise a two-key map holding the accumulated lists. -/
def FetchSourceContext.Source (fsc : FetchSourceContext) : SourceValue :=
  if !fsc.fetchSource then
    SourceValue.bool false
  else
    SourceValue.obj [(("includes"), fsc.includes), (("excludes"), fsc.excludes)]

/-- Shard metadata in the count result; its fields are never consumed by
count.go, so it is carried opaquely. -/
structure shardsInfo where
deriving DecidableEq

/-- CountResult (count.go lines 32-35). -/
structure CountResult where
  Count : Int
  Shards : shardsInfo
deriving DecidableEq

/-- An HTTP request as far as count.go observes it: method, URL, and the
optional JSON body installed by SetBodyJson. -/
structure Request where
  method : String
  url : String
  body : Option Json

/-- An HTTP response; count.go hands it whole to the checkResponse and
JSON-decode collaborators, so it is carried opaquely as a raw body string. -/
structure Response where
  rawBody : String

/-- The collaborators of CountService.Do that live outside count.go,
as oracle functions:
  expand v        = uritemplates.Expand of the one-variable template on v
  newRequest m u  = client.NewRequest(m, u)
  setBodyJson r j = req.SetBodyJson(j): the updated request paired with the
                    error SetBodyJson reports (the Do call site discards it)
  httpDo r        = client.c.Do(r)
  checkResponse   = the response-validation collaborator
  decode res      = json.NewDecoder(res.Body).Decode into a CountResult. -/
structure Client where
  expand : String → Except Err String
  newRequest : String → String → Except Err Request
  setBodyJson : Request → Json → Request × Option Err
  httpDo : Request → Except Err Response
  checkResponse : Response → Option Err
  decode : Response → Except Err CountResult

/-- CountService struct (count.go lines 21-28). The client pointer is not a
field here: it is supplied to Do as the oracle record. The Go nil slices and
the lazy make() in the mutators coincide with the empty list. -/
structure CountService where
  indices : List String
  types : List String
  query : Option Query
  debug : Bool
  pretty : Bool

/-- NewCountService (count.go lines 37-44). -/
def NewCountService : CountService :=
  { indices := []
    types := []
    query := none
    debug := false
    pretty := false }

/-- Index (count.go lines 46-52): appends one name. -/
def CountService.Index (s : CountService) (index : String) : CountService :=
  { s with indices := s.indices ++ [index] }

/-- Indices (count.go lines 54-60): appends the variadic names. -/
def CountService.Indices (s : CountService) (indices : List String) : CountService :=
  { s with indices := s.indices ++ indices }

/-- Type (count.go lines 62-68): appends one type name. Named Typ because
Type is a Lean keyword. -/
def CountService.Typ (s : CountService) (typ : String) : CountService :=
  { s with types := s.types ++ [typ] }

/-- Types (count.go lines 70-76): appends the variadic type names. -/
def CountService.Types (s : CountService) (types : List String) : CountService :=
  { s with types := s.types ++ types }

/-- Query setter (count.go lines 78-81): overwrites the stored query. -/
def CountService.Query (s : CountService) (query : Query) : CountService :=
  { s with query := some query }

/-- Pretty (count.go lines 83-86). -/
def CountService.Pretty (s : CountService) (pretty : Bool) : CountService :=
  { s with pretty := pretty }

/-- Debug (count.go lines 88-91). -/
def CountService.Debug (s : CountService) (debug : Bool) : CountService :=
  { s with debug := debug }

/-- fmt.Sprintf of a boolean with the %v verb. -/
def fmtBool (b : Bool) : String :=
  if b then ("true") else ("false")

/-- url.Values.Encode for the parameter lists this builder creates: each pair
as key=value, joined with an ampersand. The builder sets at most the single
key pretty, so the sorting and percent-escaping of the Go encoder are
identities on everything it ever encodes. -/
def encodeParams (params : List (String × String)) : String :=
  String.intercalate ("&") (params.map fun kv => kv.1 ++ ("=") ++ kv.2)

/-- The per-element expansion loops of Do (count.go lines 100-109 and
115-124): expand each name, returning the first error as the loop body does
with its early return. -/
def expandNames (c : Client) (names : List String) : Except Err (List String) :=
  match names with
  | [] => Except.ok []
  | n :: rest =>
    match c.expand n with
    | Except.error e => Except.error e
    | Except.ok v =>
      match expandNames c rest with
      | Except.error e => Except.error e
      | Except.ok vs => Except.ok (v :: vs)

/-- The path portion of the URL built by Do (count.go lines 96-130):
start from a slash, append the comma-joined expanded indices when nonempty,
append a slash and the comma-joined expanded types when nonempty, then
append the _count suffix. -/
def CountService.buildPath (s : CountService) (c : Client) : Except Err String :=
  match expandNames c s.indices with
  | Except.error e => Except.error e
  | Except.ok indexPart =>
    match expandNames c s.types with
    | Except.error e => Except.error e
    | Except.ok typesPart =>
      let urls := ("/")
      let urls := if indexPart.length > 0
        then urls ++ String.intercalate (",") indexPart else urls
      let urls := if typesPart.length > 0
        then urls ++ ("/") ++ String.intercalate (",") typesPart else urls
      Except.ok (urls ++ ("/_count"))

/-- The full URL built by Do (count.go lines 96-139): the path plus the
query string, which holds pretty=true exactly when the flag is set. -/
def CountService.buildURL (s : CountService) (c : Client) : Except Err String :=
  match s.buildPath c with
  | Except.error e => Except.error e
  | Except.ok path0 =>
    let params := if s.pretty then [(("pretty"), fmtBool s.pretty)] else []
    Except.ok (if params.length > 0 then path0 ++ ("?") ++ encodeParams params else path0)

/-- The body-setting step of Do (count.go lines 147-152): when a query is
set, wrap its Source() under the key query and install it via SetBodyJson,
whose error return the call site discards; otherwise leave the request as
built. -/
def setBody (c : Client) (s : CountService) (req : Request) : Request :=
  match s.query with
  | some q => (c.setBodyJson req (Json.obj [(("query"), q.Source)])).1
  | none => req

/-- Do (count.go lines 93-184). Each Go early return of (0, err) is a pair
with the error in the second component; the debug dumps (lines 154-157 and
169-172) only print and are omitted. The final Go lines allocate a fresh
CountResult pointer with new(), decode into it, and test it against nil;
the allocation is the literal some here. -/
def CountService.Do (s : CountService) (c : Client) : Int × Option Err :=
  match s.buildURL c with
  | Except.error e => (0, some e)
  | Except.ok urls =>
    match c.newRequest ("POST") urls with
    | Except.error e => (0, some e)
    | Except.ok req =>
      let req := setBody c s req
      match c.httpDo req with
      | Except.error e => (0, some e)
      | Except.ok res =>
        match c.checkResponse res with
        | some e => (0, some e)
        | none =>
          match c.decode res with
          | Except.error e => (0, some e)
          | Except.ok r =>
            match (some r : Option CountResult) with
            | some ret => (ret.Count, none)
            | none => ((0 : Int), none)

/-- A client whose expander is the identity (percent-encoding is the
identity on names made of unreserved characters) and whose remaining
collaborators all succeed trivially. -/
def idClient : Client :=
  { expand := Except.ok
    newRequest := fun m u => Except.ok { method := m, url := u, body := none }
    setBodyJson := fun r j => ({ r with body := some j }, none)
    httpDo := fun _ => Except.ok { rawBody := ("") }
    checkResponse := fun _ => none
    decode := fun _ => Except.ok { Count := 0, Shards := {} } }

/-- The error SetBodyJson reports in the serialization-failure scenario. -/
def boomErr : Err :=
  { msg := ("serialization failed") }

/-- A client where body serialization reports an error but every other
collaborator succeeds and the response decodes to count 7. -/
def serFailClient : Client :=
  { expand := Except.ok
    newRequest := fun m u => Except.ok { method := m, url := u, body := none }
    setBodyJson := fun r j => ({ r with body := some j }, some boomErr)
    httpDo := fun _ => Except.ok { rawBody := ("") }
    checkResponse := fun _ => none
    decode := fun _ => Except.ok { Count := 7, Shards := {} } }

/-- The same client with the serialization error silenced; only the Option
Err component of setBodyJson differs from serFailClient. -/
def serQuietClient : Client :=
  { expand := Except.ok
    newRequest := fun m u => Except.ok { method := m, url := u, body := none }
    setBodyJson := fun r j => ({ r with body := some j }, none)
    httpDo := fun _ => Except.ok { rawBody := ("") }
    checkResponse := fun _ => none
    decode := fun _ => Except.ok { Count := 7, Shards := {} } }

/-- A service with a query set, so that Do reaches the SetBodyJson step. -/
def queriedSvc : CountService :=
  NewCountService.Query { Source := Json.null }

/-- The error the response-validation collaborator reports on a non-success
HTTP status. -/
def badStatus : Err :=
  { msg := ("elastic: 500 Internal Server Error") }

/-- A client whose response validation fails (non-2xx status). -/
def badStatusClient : Client :=
  { expand := Except.ok
    newRequest := fun m u => Except.ok { method := m, url := u, body := none }
    setBodyJson := fun r j => ({ r with body := some j }, none)
    httpDo := fun _ => Except.ok { rawBody := ("") }
    checkResponse := fun _ => some badStatus
    decode := fun _ => Except.ok { Count := 0, Shards := {} } }

/-- A client where everything succeeds and the body decodes to count 42. -/
def okClient : Client :=
  { expand := Except.ok
    newRequest := fun m u => Except.ok { method := m, url := u, body := none }
    setBodyJson := fun r j => ({ r with body := some j }, none)
    httpDo := fun _ => Except.ok { rawBody := ("") }
    checkResponse := fun _ => none
    decode := fun _ => Except.ok { Count := 42, Shards := {} } }

/-- C4: for every FetchSourceContext whose fetchSource flag is false,
Source() returns the literal boolean false, regardless of the contents of
the includes and excludes lists. -/
theorem source_false_returns_bool_false (fsc : FetchSourceContext)
    (h : fsc.fetchSource = false) : fsc.Source = SourceValue.bool false := by
  unfold FetchSourceContext.Source
  simp [h]

/-- Witness for C4 at a context with fetchSource false and a nonempty
includes list. -/
theorem source_false_returns_bool_false_witness :
    ((NewFetchSourceContext false).Include ["a", "b"]).fetchSource = false ∧
    ((NewFetchSourceContext false).Include ["a", "b"]).Source = SourceValue.bool false :=
  ⟨rfl, source_false_returns_bool_false ((NewFetchSourceContext false).Include ["a", "b"]) rfl⟩

/-- C5: for every FetchSourceContext whose fetchSource flag is true,
Source() returns the two-key mapping holding the accumulated includes and
excludes lists in insertion order, with empty lists present rather than
omitted. -/
theorem source_true_returns_obj (fsc : FetchSourceContext)
    (h : fsc.fetchSource = true) :
    fsc.Source =
      SourceValue.obj [(("includes"), fsc.includes), (("excludes"), fsc.excludes)] := by
  unfold FetchSourceContext.Source
  simp [h]

/-- Witness for C5 at the example of the claim: includes a, b and
excludes c. -/
theorem source_true_returns_obj_witness :
    (((NewFetchSourceContext true).Include ["a", "b"]).Exclude ["c"]).Source =
      SourceValue.obj [(("includes"), ["a", "b"]), (("excludes"), ["c"])] :=
  source_true_returns_obj (((NewFetchSourceContext true).Include ["a", "b"]).Exclude ["c"]) rfl

/-- C6: Include and Exclude are purely additive and chainable: each call
appends its arguments at the end of its list, leaves every other field
unchanged, duplicates are kept, and chaining from a fresh context yields
the concatenation in call order. -/
theorem include_exclude_additive (fsc : FetchSourceContext) (xs ys : List String) :
    (fsc.Include xs).includes = fsc.includes ++ xs ∧
    ((fsc.Include xs).Include ys).includes = fsc.includes ++ xs ++ ys ∧
    (fsc.Include xs).excludes = fsc.excludes ∧
    (fsc.Include xs).fetchSource = fsc.fetchSource ∧
    (fsc.Include xs).transformSource = fsc.transformSource ∧
    (fsc.Exclude xs).excludes = fsc.excludes ++ xs ∧
    ((fsc.Exclude xs).Exclude ys).excludes = fsc.excludes ++ xs ++ ys ∧
    (fsc.Exclude xs).includes = fsc.includes ∧
    (fsc.Exclude xs).fetchSource = fsc.fetchSource ∧
    (fsc.Exclude xs).transformSource = fsc.transformSource ∧
    (((NewFetchSourceContext true).Include ["x"]).Include ["y"]).includes = ["x", "y"] ∧
    (((NewFetchSourceContext true).Include ["x"]).Include ["x"]).includes = ["x", "x"] :=
  ⟨rfl, rfl, rfl, rfl, rfl, rfl, rfl, rfl, rfl, rfl, rfl, rfl⟩

/-- C9: Source() does not depend on the transformSource flag: any two
contexts agreeing on fetchSource, includes and excludes produce the same
Source() value, whatever their transformSource flags. -/
theorem source_independent_of_transformSource (a b : FetchSourceContext)
    (h1 : a.fetchSource = b.fetchSource) (h2 : a.includes = b.includes)
    (h3 : a.excludes = b.excludes) : a.Source = b.Source := by
  unfold FetchSourceContext.Source
  rw [h1, h2, h3]

/-- Witness for C9 on a concrete pair differing only in transformSource. -/
theorem source_independent_of_transformSource_witness :
    ((NewFetchSourceContext true).Include ["a"]).Source =
      (((NewFetchSourceContext true).Include ["a"]).TransformSource true).Source :=
  source_independent_of_transformSource ((NewFetchSourceContext true).Include ["a"])
    (((NewFetchSourceContext true).Include ["a"]).TransformSource true) rfl rfl rfl

/-- C8: Query(q) replaces any previously set query object rather than
accumulating, and leaves the indices, types, pretty and debug fields
unchanged. -/
theorem query_replaces_and_frames (s : CountService) (a b : Query) :
    ((s.Query a).Query b).query = some b ∧
    (s.Query a).query = some a ∧
    (s.Query a).indices = s.indices ∧
    (s.Query a).types = s.types ∧
    (s.Query a).pretty = s.pretty ∧
    (s.Query a).debug = s.debug :=
  ⟨rfl, rfl, rfl, rfl, rfl, rfl⟩

/-- Every branch of Do either reports no error or carries the count zero. -/
theorem do_zero_or_no_error (s : CountService) (c : Client) :
    (s.Do c).1 = 0 ∨ (s.Do c).2 = none := by
  unfold CountService.Do
  cases s.buildURL c with
  | error e => simp
  | ok u =>
    dsimp only
    cases c.newRequest ("POST") u with
    | error e => simp
    | ok req =>
      dsimp only
      cases c.httpDo (setBody c s req) with
      | error e => simp
      | ok res =>
        dsimp only
        cases c.checkResponse res with
        | some e => simp
        | none =>
          dsimp only
          cases c.decode res with
          | error e => simp
          | ok r => simp

/-- C2: whenever Do() returns a non-nil error, whatever collaborator step
failed, the numeric value it returns is exactly zero. -/
theorem do_error_implies_zero_count (s : CountService) (c : Client) (e : Err)
    (h : (s.Do c).2 = some e) : (s.Do c).1 = 0 := by
  rcases do_zero_or_no_error s c with h0 | hn
  · exact h0
  · rw [hn] at h
    exact Option.noConfusion h

/-- Witness for C2: a client whose response validation rejects the response
makes Do fail, and the count returned with the error is zero. -/
theorem do_error_implies_zero_count_witness :
    (NewCountService.Do badStatusClient).2 = some badStatus ∧
    (NewCountService.Do badStatusClient).1 = 0 :=
  ⟨rfl, do_error_implies_zero_count NewCountService badStatusClient badStatus rfl⟩

/-- C10: once URL building, request construction, transport and response
validation have succeeded and the body decodes to a result r, Do returns
exactly (r.Count, nil): the freshly allocated result is never nil, so the
trailing fallback returning (0, nil) is unreachable. -/
theorem do_success_returns_decoded_count (s : CountService) (c : Client)
    (u : String) (req : Request) (res : Response) (r : CountResult)
    (h1 : s.buildURL c = Except.ok u)
    (h2 : c.newRequest ("POST") u = Except.ok req)
    (h3 : c.httpDo (setBody c s req) = Except.ok res)
    (h4 : c.checkResponse res = none)
    (h5 : c.decode res = Except.ok r) :
    s.Do c = (r.Count, none) := by
  unfold CountService.Do
  simp only [h1, h2, h3, h4, h5]

/-- Witness for C10: with every collaborator succeeding and the body
decoding to count 42, Do returns (42, nil). -/
theorem do_success_returns_decoded_count_witness :
    NewCountService.Do okClient = ((42 : Int), (none : Option Err)) :=
  do_success_returns_decoded_count NewCountService okClient ("//_count")
    { method := ("POST"), url := ("//_count"), body := none }
    { rawBody := ("") } { Count := 42, Shards := {} } rfl rfl rfl rfl rfl

/-- C7: the URL Do builds is the path plus a query string that holds
pretty=true exactly when the pretty flag is set; with the flag unset no
query string (and no other parameter) is ever appended. -/
theorem buildURL_pretty_only_param (s : CountService) (c : Client) :
    s.buildURL c = (s.buildPath c).map
      (fun p => if s.pretty then p ++ ("?pretty=true") else p) := by
  unfold CountService.buildURL
  cases s.buildPath c with
  | error e => rfl
  | ok p =>
    dsimp only
    cases hp : s.pretty with
    | false => simp [Except.map]
    | true =>
      show Except.ok (p ++ ("?") ++ encodeParams [(("pretty"), fmtBool true)]) =
        Except.map (fun p => if true = true then p ++ ("?pretty=true") else p) (Except.ok p)
      rw [String.append_assoc]
      have h : ("?") ++ encodeParams [(("pretty"), fmtBool true)] = ("?pretty=true") := by
        decide
      rw [h]
      rfl

/-- C3 counterexample: with no indices and no types the code starts the URL
from a slash and then appends the slash-prefixed _count suffix, producing a
double slash rather than the single-slash path the claim states. -/
theorem buildPath_no_indices_no_types_cex :
    NewCountService.buildPath idClient = Except.ok ("//_count") ∧
    NewCountService.buildPath idClient ≠ Except.ok ("/_count") := by
  constructor
  · rfl
  · intro h
    exact absurd (Except.ok.inj h) (by decide)

/-- C3 amended: when every name expands successfully, the built path is a
slash, then the comma-joined expanded indices, then (only when types are
present) a slash and the comma-joined expanded types, then the /_count
suffix; the leading slash is kept even when the index list is empty, so
with no indices and no types the path is //_count. -/
theorem buildPath_shape (s : CountService) (c : Client) (I T : List String)
    (hI : expandNames c s.indices = Except.ok I)
    (hT : expandNames c s.types = Except.ok T) :
    s.buildPath c = Except.ok (("/") ++ String.intercalate (",") I ++
      (if T.isEmpty then ("") else ("/") ++ String.intercalate (",") T) ++ ("/_count")) := by
  unfold CountService.buildPath
  simp only [hI, hT]
  cases I with
  | nil =>
    cases T with
    | nil => simp [String.intercalate, String.append_empty]
    | cons t ts =>
      simp [String.intercalate, String.append_empty, String.append_assoc]
      have h2 : ("//") = ("/") ++ ("/") := by decide
      rw [h2, String.append_assoc]
  | cons i is =>
    cases T with
    | nil => simp [String.intercalate, String.append_empty]
    | cons t ts => simp [String.append_assoc]

/-- Witness for the C3 amended theorem at the example of the claim:
indices idx1, idx2, no types, identity expansion. -/
theorem buildPath_shape_witness :
    (NewCountService.Indices ["idx1", "idx2"]).buildPath idClient =
      Except.ok ("/idx1,idx2/_count") := by
  have h := buildPath_shape (NewCountService.Indices ["idx1", "idx2"]) idClient
    ["idx1", "idx2"] [] rfl rfl
  rw [h]
  rfl

/-- C1 counterexample: a service with a query set, against a client whose
body serialization reports an error while transport, validation and decoding
succeed with count 7. Do returns (7, nil): the serialization error is
discarded and the request is still transmitted, contradicting the claimed
(0, error) short circuit. -/
theorem do_serialization_error_not_returned_cex :
    queriedSvc.Do serFailClient = ((7 : Int), (none : Option Err)) ∧
    queriedSvc.Do serFailClient ≠ ((0 : Int), some boomErr) := by
  exact ⟨rfl, by decide⟩

/-- C1 amended: Do ignores the error component of SetBodyJson entirely: two
clients that agree on every collaborator and on the request SetBodyJson
produces, but report different serialization errors, drive Do to the same
result, so a body-serialization failure neither aborts the call nor
surfaces to the caller. -/
theorem do_result_ignores_setBodyJson_error (s : CountService) (c c' : Client)
    (hexp : c.expand = c'.expand)
    (hreq : c.newRequest = c'.newRequest)
    (hbody : ∀ r j, (c.setBodyJson r j).1 = (c'.setBodyJson r j).1)
    (hdo : c.httpDo = c'.httpDo)
    (hchk : c.checkResponse = c'.checkResponse)
    (hdec : c.decode = c'.decode) :
    s.Do c = s.Do c' := by
  have hexps : ∀ names, expandNames c names = expandNames c' names := by
    intro names
    induction names with
    | nil => rfl
    | cons n rest ih =>
      unfold expandNames
      rw [hexp, ih]
  have hpath : s.buildPath c = s.buildPath c' := by
    unfold CountService.buildPath
    rw [hexps s.indices, hexps s.types]
  have hurl : s.buildURL c = s.buildURL c' := by
    unfold CountService.buildURL
    rw [hpath]
  have hsb : setBody c s = setBody c' s := by
    funext r
    unfold setBody
    cases s.query with
    | none => rfl
    | some q => exact hbody r (Json.obj [(("query"), q.Source)])
  unfold CountService.Do
  rw [hurl, hreq, hdo, hchk, hdec, hsb]

/-- Witness for the C1 amended theorem: the failing and the silenced
serialization clients drive Do to the same outcome. -/
theorem do_result_ignores_setBodyJson_error_witness :
    queriedSvc.Do serFailClient = queriedSvc.Do serQuietClient :=
  do_result_ignores_setBodyJson_error queriedSvc serFailClient serQuietClient
    rfl rfl (fun _ _ => rfl) rfl rfl rfl
